import Mathlib

/-!
# Verification of the ScrubCam dispatch loop (`scrubcam.py`)

A shallow embedding of the control loop in `scrubcam.py`.  The loop body is
modelled as a pure function producing the list of observable side effects
(events) of one cycle, and the whole run as the concatenation of per-cycle
traces threaded through the heartbeat-clock state.  Floats are modelled as
rationals; timestamps as an explicit calendar record.
-/

namespace ScrubCam

/-- One object-detection result: the `lbox` dictionaries produced by
`detector.labeled_boxes` (spec §3 "Detection"). -/
structure Detection where
  class_name : String
  confidence : ℚ
  box : Int × Int × Int × Int
  deriving DecidableEq

/-- The configuration constants read from the YAML file
(`scrubcam.py` lines 44-52). -/
structure Configuration where
  RECORD : Bool
  RECORD_CONF_THRESHOLD : ℚ
  CAMERA_RESOLUTION : Int × Int
  CAMERA_ROTATION : Int
  FILTER_CLASSES : List String
  HEADLESS : Bool
  CONNECT_REMOTE_SERVER : Bool
  LORA_ON : Bool
  deriving DecidableEq

/-- A wall-clock timestamp, as used for the sighting-log line. -/
structure DateTime where
  year : Nat
  month : Nat
  day : Nat
  hour : Nat
  minute : Nat
  second : Nat
  deriving DecidableEq

/-- Zero-pad the decimal representation of `n` to width `w`. -/
def padZero (w : Nat) (n : Nat) : String :=
  let s := toString n
  String.mk (List.replicate (w - s.length) '0') ++ s

/-- Python's `datetime.now().strftime('%Y-%m-%d %H:%M:%S')` (`scrubcam.py` lines 106-107). -/
def strftimeYmdHMS (t : DateTime) : String :=
  padZero 4 t.year ++ "-" ++ padZero 2 t.month ++ "-" ++ padZero 2 t.day ++ " " ++
    padZero 2 t.hour ++ ":" ++ padZero 2 t.minute ++ ":" ++ padZero 2 t.second

/-- The observable side effects of the loop, one constructor per effectful
statement of `scrubcam.py` lines 83-116. -/
inductive Event where
  | capture
  | heartbeatCheck
  | heartbeatSend
  | inferRun
  | printReport
  | displayUpdate (lboxes : List Detection)
  | netSend (lboxes : List Detection)
  | persistFrame (lboxes : List Detection)
  | loraSend (msg : String)
  | openLog (path : String) (mode : String)
  | writeLog (line : String)
  | closeLog
  | streamReset
  | logWarning (msg : String)
  | socketClose
  deriving DecidableEq

/-- The decision step of one cycle, `scrubcam.py` lines 93-109: the events it
emits, in program order.  `now` is the wall clock read at line 107. -/
def decisionStep (cfg : Configuration) (lboxes : List Detection) (now : DateTime) :
    List Event :=
  match lboxes with
  | [] => []
  | top :: _ =>
    if cfg.RECORD = true ∧ cfg.RECORD_CONF_THRESHOLD < top.confidence then
      (if (lboxes.map (fun lbox => lbox.class_name)).any
          (fun itm => cfg.FILTER_CLASSES.contains itm) then
        (if cfg.CONNECT_REMOTE_SERVER then [Event.netSend lboxes] else [])
          ++ [Event.persistFrame lboxes]
          ++ (if cfg.LORA_ON then
                [Event.loraSend ("Top-1: " ++ top.class_name)]
              else [])
      else [])
        ++ [Event.openLog "what_was_seen.log" "a+",
            Event.writeLog (strftimeYmdHMS now ++ " | " ++ top.class_name ++ "\n"),
            Event.closeLog]
    else []

/-- Modelled from the spec: the implementation of
`ClientSocketHandler.send_heartbeat_every_15s` lives in `scrubcam/networking.py`,
which is not part of this snapshot (only its call site at `scrubcam.py` line 85
is).  Per spec §4.2, the handler records the time of the last heartbeat; when at
least 15 seconds have elapsed it sends one heartbeat and resets the clock.
`now` and `last` are clock readings in seconds; the result is whether a
heartbeat was sent, paired with the new last-heartbeat time. -/
def send_heartbeat_every_15s (now last : ℤ) : Bool × ℤ :=
  if 15 ≤ now - last then (true, now) else (false, last)

/-- The data a single loop iteration consumes: the heartbeat-clock reading at
the start of the cycle (in seconds), the detection sequence that inference
produces for the captured frame, and the wall clock used for the log line. -/
structure CycleInput where
  now : ℤ
  lboxes : List Detection
  wallClock : DateTime
  deriving DecidableEq

/-- Events of one cycle that precede the decision step:
the capture (line 83), the heartbeat check (lines 84-85), inference and report
(lines 86-87), and the display update (lines 90-91). -/
def cycleHead (cfg : Configuration) (last : ℤ) (inp : CycleInput) : List Event :=
  [Event.capture]
    ++ (if cfg.CONNECT_REMOTE_SERVER then
          [Event.heartbeatCheck]
            ++ (if (send_heartbeat_every_15s inp.now last).1 then
                  [Event.heartbeatSend]
                else [])
        else [])
    ++ [Event.inferRun, Event.printReport]
    ++ (if cfg.HEADLESS then [] else [Event.displayUpdate inp.lboxes])

/-- One full iteration of the `for` loop (`scrubcam.py` lines 83-112): the
events it emits in program order, and the heartbeat clock after the cycle. -/
def cycleTrace (cfg : Configuration) (last : ℤ) (inp : CycleInput) :
    List Event × ℤ :=
  (cycleHead cfg last inp
      ++ decisionStep cfg inp.lboxes inp.wallClock
      ++ [Event.streamReset],
   if cfg.CONNECT_REMOTE_SERVER then (send_heartbeat_every_15s inp.now last).2
   else last)

/-- The per-cycle event traces of a run over the given cycle inputs, threading
the heartbeat clock from cycle to cycle. -/
def runTraces (cfg : Configuration) (last : ℤ) : List CycleInput → List (List Event)
  | [] => []
  | inp :: rest =>
      (cycleTrace cfg last inp).1 :: runTraces cfg (cycleTrace cfg last inp).2 rest

/-- How the body of the `try` block can terminate: a Python exception by name,
with `KeyboardInterrupt` distinguished (`scrubcam.py` line 113). -/
inductive PyExc where
  | keyboardInterrupt
  | otherExc (name : String)
  deriving DecidableEq

/-- Process outcome: still looping (the loop does not return under normal
operation), a clean return from `main` (process exit code 0), or an unhandled
exception terminating the process. -/
inductive Outcome where
  | running
  | exited (code : Nat)
  | crashed (name : String)
  deriving DecidableEq

/-- The body of the `try` block (`scrubcam.py` lines 83-112) with an optional
asynchronous exception: `some (k, exc)` means `exc` is raised after exactly `k`
events of the run have been emitted (any later position, in this finite model,
raises after all modelled cycles).  Returns the emitted events and the escaping
exception, if any. -/
def runTry (cfg : Configuration) (last : ℤ) :
    List CycleInput → Option (Nat × PyExc) → List Event × Option PyExc
  | [], none => ([], none)
  | [], some (_, exc) => ([], some exc)
  | inp :: rest, none =>
      let c := cycleTrace cfg last inp
      let r := runTry cfg c.2 rest none
      (c.1 ++ r.1, r.2)
  | inp :: rest, some (k, exc) =>
      let c := cycleTrace cfg last inp
      if k < c.1.length then (c.1.take k, some exc)
      else
        let r := runTry cfg c.2 rest (some (k - c.1.length, exc))
        (c.1 ++ r.1, r.2)

/-- The events of an uninterrupted run. -/
def loopTrace (cfg : Configuration) (last : ℤ) (inputs : List CycleInput) :
    List Event :=
  (runTry cfg last inputs none).1

/-- The `try`/`except KeyboardInterrupt` statement of `main`
(`scrubcam.py` lines 82-116): a `KeyboardInterrupt` is caught, a warning is
logged, the socket is closed if a remote connection is configured, and `main`
returns normally; any other exception escapes unhandled. -/
def mainLoop (cfg : Configuration) (last : ℤ) (inputs : List CycleInput)
    (sig : Option (Nat × PyExc)) : List Event × Outcome :=
  let r := runTry cfg last inputs sig
  match r.2 with
  | none => (r.1, Outcome.running)
  | some PyExc.keyboardInterrupt =>
      (r.1 ++ [Event.logWarning "KeyboardInterrupt"]
           ++ (if cfg.CONNECT_REMOTE_SERVER then [Event.socketClose] else []),
       Outcome.exited 0)
  | some (PyExc.otherExc n) => (r.1, Outcome.crashed n)

/-! ## Event classification and ordering -/

/-- Is this event a sighting-log line write? -/
def isWriteLogEv : Event → Bool
  | Event.writeLog _ => true
  | _ => false

/-- Is this event an `open` of the sighting log? -/
def isOpenLogEv : Event → Bool
  | Event.openLog _ _ => true
  | _ => false

/-- Is this event a `close` of the sighting log? -/
def isCloseLogEv : Event → Bool
  | Event.closeLog => true
  | _ => false

/-- Is this event a `send_image_and_boxes` network send? -/
def isNetSendEv : Event → Bool
  | Event.netSend _ => true
  | _ => false

/-- Is this event a `save_current_frame` frame persistence? -/
def isPersistEv : Event → Bool
  | Event.persistFrame _ => true
  | _ => false

/-- Is this event a LoRa radio send? -/
def isLoraEv : Event → Bool
  | Event.loraSend _ => true
  | _ => false

/-- Is this event the heartbeat check? -/
def isHbCheckEv : Event → Bool
  | Event.heartbeatCheck => true
  | _ => false

/-- Is this event a heartbeat send? -/
def isHbSendEv : Event → Bool
  | Event.heartbeatSend => true
  | _ => false

/-- Is this event the inference call? -/
def isInferEv : Event → Bool
  | Event.inferRun => true
  | _ => false

/-- Index of the first event satisfying `p`, if any. -/
def firstIdx (p : Event → Bool) : List Event → Option Nat
  | [] => none
  | e :: l => if p e then some 0 else (firstIdx p l).map Nat.succ

/-- Returns `true` iff both `p` and `q` occur in `l` and the first `p`-event strictly
precedes the first `q`-event. -/
def firstBeforeB (p q : Event → Bool) (l : List Event) : Bool :=
  match firstIdx p l, firstIdx q l with
  | some i, some j => decide (i < j)
  | _, _ => false

/-! ## The three-verdict reference policy (spec §4.3, §8) -/

/-- The verdicts of the spec's reference decision policy (spec §4.3). -/
inductive Verdict where
  | NoAction
  | LogOnly
  | LogAndDispatch
  deriving DecidableEq

/-- Reference decision policy, stated from the spec's words (§4.1 step 6,
§4.3): `NoAction` when the sequence is empty, or recording is disabled, or the
top confidence is not strictly above the threshold; otherwise `LogAndDispatch`
when the set of detected class names intersects `FILTER_CLASSES`, else
`LogOnly`. -/
def decisionPolicy (cfg : Configuration) (lboxes : List Detection) : Verdict :=
  match lboxes with
  | [] => Verdict.NoAction
  | top :: _ =>
    if cfg.RECORD = false ∨ top.confidence ≤ cfg.RECORD_CONF_THRESHOLD then
      Verdict.NoAction
    else if (lboxes.map (fun lbox => lbox.class_name)).any
        (fun c => cfg.FILTER_CLASSES.contains c) then
      Verdict.LogAndDispatch
    else
      Verdict.LogOnly

/-- The multiset of observable side effects of a decision step, by count:
sighting-log line writes, persisted frames, network sends, radio sends. -/
structure Effects where
  logLines : Nat
  persists : Nat
  netSends : Nat
  loraSends : Nat
  deriving DecidableEq

/-- Count each kind of observable side effect in a trace. -/
def observedEffects (tr : List Event) : Effects :=
  { logLines := tr.countP isWriteLogEv
    persists := tr.countP isPersistEv
    netSends := tr.countP isNetSendEv
    loraSends := tr.countP isLoraEv }

/-- The side effects the spec's words attach to each verdict: nothing for
`NoAction`; exactly one log line for `LogOnly`; one log line, one persisted
frame, one network send if connected and one radio send if enabled for
`LogAndDispatch`. -/
def verdictEffects (cfg : Configuration) : Verdict → Effects
  | Verdict.NoAction => ⟨0, 0, 0, 0⟩
  | Verdict.LogOnly => ⟨1, 0, 0, 0⟩
  | Verdict.LogAndDispatch =>
      ⟨1, 1, if cfg.CONNECT_REMOTE_SERVER then 1 else 0,
        if cfg.LORA_ON then 1 else 0⟩

/-! ## Concrete fixtures (used by the closed witness theorems) -/

/-- A concrete configuration: recording on, threshold 0.6, allow-list
`["deer", "fox"]`, remote server and LoRa enabled, headless. -/
def cfgA : Configuration :=
  { RECORD := true
    RECORD_CONF_THRESHOLD := mkRat 3 5
    CAMERA_RESOLUTION := (1920, 1080)
    CAMERA_ROTATION := 0
    FILTER_CLASSES := ["deer", "fox"]
    HEADLESS := true
    CONNECT_REMOTE_SERVER := true
    LORA_ON := true }

/-- A concrete detection of a deer at confidence 0.8. -/
def detDeer : Detection := { class_name := "deer", confidence := mkRat 4 5, box := (0, 0, 10, 10) }

/-- A concrete detection of a bird at confidence 0.3. -/
def detBird : Detection := { class_name := "bird", confidence := mkRat 3 10, box := (0, 0, 10, 10) }

/-- A concrete detection of a bird at confidence 0.9. -/
def detBird9 : Detection := { class_name := "bird", confidence := mkRat 9 10, box := (0, 0, 10, 10) }

/-- A concrete detection of a deer whose confidence equals `cfgA`'s threshold. -/
def detDeerEq : Detection := { class_name := "deer", confidence := mkRat 3 5, box := (0, 0, 10, 10) }

/-- A concrete wall-clock timestamp. -/
def timeA : DateTime := { year := 2026, month := 10, day := 12, hour := 9, minute := 5, second := 3 }

/-- A cycle detecting `[deer 0.8, bird 0.3]` with heartbeat clock 0. -/
def inpDeer : CycleInput := { now := 0, lboxes := [detDeer, detBird], wallClock := timeA }

/-- A cycle detecting only `bird 0.9` (not on `cfgA`'s allow-list). -/
def inpBird : CycleInput := { now := 0, lboxes := [detBird9], wallClock := timeA }

/-- A cycle detecting `[bird 0.9, deer 0.8]`: the top class is not on the
allow-list but a lower-ranked one is. -/
def inpMixed : CycleInput := { now := 0, lboxes := [detBird9, detDeer], wallClock := timeA }

/-- An empty-detection cycle at heartbeat clock 5. -/
def inpAt5 : CycleInput := { now := 5, lboxes := [], wallClock := timeA }

/-- An empty-detection cycle at heartbeat clock 20. -/
def inpAt20 : CycleInput := { now := 20, lboxes := [], wallClock := timeA }

/-! ## Helper lemmas -/

/-- The recording condition of the code (line 94) is the negation of the
spec's `NoAction` condition. -/
lemma record_cond_iff (cfg : Configuration) (top : Detection) :
    ¬(cfg.RECORD = false ∨ top.confidence ≤ cfg.RECORD_CONF_THRESHOLD) ↔
      (cfg.RECORD = true ∧ cfg.RECORD_CONF_THRESHOLD < top.confidence) := by
  constructor
  · intro h
    push_neg at h
    exact ⟨eq_true_of_ne_false h.1, h.2⟩
  · rintro ⟨h1, h2⟩
    push_neg
    exact ⟨by simp [h1], h2⟩

/-- The pre-decision part of a cycle contains no event of a kind `p` that is
false on capture, heartbeat, inference, report and display events. -/
lemma cycleHead_countP_zero (cfg : Configuration) (last : ℤ) (inp : CycleInput)
    (p : Event → Bool)
    (h1 : p Event.capture = false) (h2 : p Event.heartbeatCheck = false)
    (h3 : p Event.heartbeatSend = false) (h4 : p Event.inferRun = false)
    (h5 : p Event.printReport = false)
    (h6 : ∀ lb, p (Event.displayUpdate lb) = false) :
    (cycleHead cfg last inp).countP p = 0 := by
  unfold cycleHead
  split_ifs <;>
    simp [List.countP_append, List.countP_cons, h1, h2, h3, h4, h5, h6]

/-- The decision step contains no event of a kind `p` that is false on all
six kinds of decision-step events. -/
lemma decisionStep_countP_zero (cfg : Configuration) (lboxes : List Detection)
    (now : DateTime) (p : Event → Bool)
    (h1 : ∀ lb, p (Event.netSend lb) = false)
    (h2 : ∀ lb, p (Event.persistFrame lb) = false)
    (h3 : ∀ s, p (Event.loraSend s) = false)
    (h4 : ∀ a b, p (Event.openLog a b) = false)
    (h5 : ∀ s, p (Event.writeLog s) = false)
    (h6 : p Event.closeLog = false) :
    (decisionStep cfg lboxes now).countP p = 0 := by
  cases lboxes with
  | nil => rfl
  | cons top rest =>
    by_cases hrec : cfg.RECORD = true ∧ cfg.RECORD_CONF_THRESHOLD < top.confidence
    · rw [decisionStep, if_pos hrec]
      split_ifs <;>
        simp only [List.countP_append, List.countP_cons, List.countP_nil,
          h1, h2, h3, h4, h5, h6] <;>
        simp
    · rw [decisionStep, if_neg hrec]
      rfl

/-- For an event kind that only the decision step produces, counting over the
whole cycle trace is counting over the decision step. -/
lemma cycleTrace_countP_decision (cfg : Configuration) (last : ℤ)
    (inp : CycleInput) (p : Event → Bool)
    (h1 : p Event.capture = false) (h2 : p Event.heartbeatCheck = false)
    (h3 : p Event.heartbeatSend = false) (h4 : p Event.inferRun = false)
    (h5 : p Event.printReport = false)
    (h6 : ∀ lb, p (Event.displayUpdate lb) = false)
    (h7 : p Event.streamReset = false) :
    ((cycleTrace cfg last inp).1).countP p
      = (decisionStep cfg inp.lboxes inp.wallClock).countP p := by
  show ((cycleHead cfg last inp
      ++ decisionStep cfg inp.lboxes inp.wallClock
      ++ [Event.streamReset])).countP p = _
  simp [List.countP_append, List.countP_cons,
    cycleHead_countP_zero cfg last inp p h1 h2 h3 h4 h5 h6, h7]

/-- The decision step in a dispatching cycle (recording condition holds and a
detected class is on the allow-list), spelled out event for event. -/
lemma decisionStep_dispatch (cfg : Configuration) (top : Detection)
    (rest : List Detection) (now : DateTime)
    (hrec : cfg.RECORD = true)
    (hconf : cfg.RECORD_CONF_THRESHOLD < top.confidence)
    (hany : ((top :: rest).map (fun lbox => lbox.class_name)).any
        (fun itm => cfg.FILTER_CLASSES.contains itm) = true) :
    decisionStep cfg (top :: rest) now =
      (if cfg.CONNECT_REMOTE_SERVER then [Event.netSend (top :: rest)] else [])
        ++ [Event.persistFrame (top :: rest)]
        ++ (if cfg.LORA_ON then
              [Event.loraSend ("Top-1: " ++ top.class_name)]
            else [])
        ++ [Event.openLog "what_was_seen.log" "a+",
            Event.writeLog (strftimeYmdHMS now ++ " | " ++ top.class_name ++ "\n"),
            Event.closeLog] := by
  rw [decisionStep, if_pos ⟨hrec, hconf⟩, if_pos hany]

/-- The decision step in a log-only cycle (recording condition holds but no
detected class is on the allow-list). -/
lemma decisionStep_logOnly (cfg : Configuration) (top : Detection)
    (rest : List Detection) (now : DateTime)
    (hrec : cfg.RECORD = true)
    (hconf : cfg.RECORD_CONF_THRESHOLD < top.confidence)
    (hany : ((top :: rest).map (fun lbox => lbox.class_name)).any
        (fun itm => cfg.FILTER_CLASSES.contains itm) = false) :
    decisionStep cfg (top :: rest) now =
      [Event.openLog "what_was_seen.log" "a+",
       Event.writeLog (strftimeYmdHMS now ++ " | " ++ top.class_name ++ "\n"),
       Event.closeLog] := by
  rw [decisionStep, if_pos ⟨hrec, hconf⟩,
    if_neg (fun hcon => by rw [hany] at hcon; simp at hcon)]
  simp

/-- Skipping a block with no `p`-event shifts the first `p`-index by its
length. -/
lemma firstIdx_append_none (p : Event → Bool) (l₁ l₂ : List Event)
    (h : l₁.countP p = 0) :
    firstIdx p (l₁ ++ l₂) = (firstIdx p l₂).map (fun i => i + l₁.length) := by
  induction l₁ with
  | nil =>
    cases h2 : firstIdx p l₂ <;> simp [h2]
  | cons e t ih =>
    rw [List.countP_cons] at h
    have he : p e = false := by
      by_contra hcon
      simp [eq_true_of_ne_false hcon] at h
    have ht : t.countP p = 0 := by omega
    rw [List.cons_append, firstIdx, he, ih ht]
    cases firstIdx p l₂ <;> simp
    omega

/-- Relative order of first occurrences is unchanged by a prelude with no
occurrence of either kind. -/
lemma firstBeforeB_append_clean (p q : Event → Bool) (l₁ l₂ : List Event)
    (hp : l₁.countP p = 0) (hq : l₁.countP q = 0) :
    firstBeforeB p q (l₁ ++ l₂) = firstBeforeB p q l₂ := by
  unfold firstBeforeB
  rw [firstIdx_append_none p l₁ l₂ hp, firstIdx_append_none q l₁ l₂ hq]
  cases firstIdx p l₂ <;> cases firstIdx q l₂ <;> simp

/-- For event kinds that only the decision step produces, first-occurrence
order over the whole cycle trace is first-occurrence order over the decision
step (followed by the stream reset). -/
lemma cycleTrace_firstBeforeB_decision (cfg : Configuration) (last : ℤ)
    (inp : CycleInput) (p q : Event → Bool)
    (hp1 : p Event.capture = false) (hp2 : p Event.heartbeatCheck = false)
    (hp3 : p Event.heartbeatSend = false) (hp4 : p Event.inferRun = false)
    (hp5 : p Event.printReport = false)
    (hp6 : ∀ lb, p (Event.displayUpdate lb) = false)
    (hq1 : q Event.capture = false) (hq2 : q Event.heartbeatCheck = false)
    (hq3 : q Event.heartbeatSend = false) (hq4 : q Event.inferRun = false)
    (hq5 : q Event.printReport = false)
    (hq6 : ∀ lb, q (Event.displayUpdate lb) = false) :
    firstBeforeB p q ((cycleTrace cfg last inp).1)
      = firstBeforeB p q
          (decisionStep cfg inp.lboxes inp.wallClock ++ [Event.streamReset]) := by
  show firstBeforeB p q (cycleHead cfg last inp
      ++ decisionStep cfg inp.lboxes inp.wallClock ++ [Event.streamReset]) = _
  rw [List.append_assoc]
  exact firstBeforeB_append_clean p q _ _
    (cycleHead_countP_zero cfg last inp p hp1 hp2 hp3 hp4 hp5 hp6)
    (cycleHead_countP_zero cfg last inp q hq1 hq2 hq3 hq4 hq5 hq6)

/-! ## C1 -/

/-- Claim C1. For every Detection sequence and Configuration, the observable side
effects of the decision step are exactly those of the three-verdict reference
policy: nothing on `NoAction`; exactly one sighting-log line and nothing else
on `LogOnly`; one log line, one persisted frame, a network send iff connected,
and a radio send iff enabled on `LogAndDispatch`. -/
theorem decisionStep_matches_policy (cfg : Configuration)
    (lboxes : List Detection) (now : DateTime) :
    observedEffects (decisionStep cfg lboxes now) =
      verdictEffects cfg (decisionPolicy cfg lboxes) := by
  cases lboxes with
  | nil => rfl
  | cons top rest =>
    by_cases hrec : cfg.RECORD = true ∧ cfg.RECORD_CONF_THRESHOLD < top.confidence
    · have hrec' := (record_cond_iff cfg top).mpr hrec
      rw [decisionStep, decisionPolicy, if_pos hrec, if_neg hrec']
      by_cases hany : ((top :: rest).map (fun lbox => lbox.class_name)).any
          (fun itm => cfg.FILTER_CLASSES.contains itm) = true
      · rw [if_pos hany, if_pos hany]
        cases hc : cfg.CONNECT_REMOTE_SERVER <;> cases hl : cfg.LORA_ON <;>
          simp [observedEffects, verdictEffects, hc, hl, List.countP_append,
            List.countP_cons, isWriteLogEv, isPersistEv, isNetSendEv, isLoraEv]
      · rw [if_neg hany, if_neg hany]
        simp [observedEffects, verdictEffects, List.countP_cons,
          isWriteLogEv, isPersistEv, isNetSendEv, isLoraEv]
    · have hrec' : cfg.RECORD = false ∨ top.confidence ≤ cfg.RECORD_CONF_THRESHOLD := by
        by_contra hcon
        exact hrec ((record_cond_iff cfg top).mp hcon)
      rw [decisionStep, decisionPolicy, if_neg hrec, if_pos hrec']
      rfl

/-! ## C2 -/

/-- Claim C2. The recording gate is strict: when the top detection's confidence
equals `RECORD_CONF_THRESHOLD` exactly, the reference policy yields `NoAction`
and the decision step emits no event at all — no log line, no persisted frame,
no network send, no radio send. -/
theorem equal_confidence_no_action (cfg : Configuration) (top : Detection)
    (rest : List Detection) (now : DateTime)
    (h : top.confidence = cfg.RECORD_CONF_THRESHOLD) :
    decisionPolicy cfg (top :: rest) = Verdict.NoAction ∧
      decisionStep cfg (top :: rest) now = [] := by
  have hle : cfg.RECORD = false ∨ top.confidence ≤ cfg.RECORD_CONF_THRESHOLD :=
    Or.inr (le_of_eq h)
  have hrec : ¬(cfg.RECORD = true ∧ cfg.RECORD_CONF_THRESHOLD < top.confidence) := by
    rintro ⟨-, hlt⟩
    rw [h] at hlt
    exact lt_irrefl _ hlt
  exact ⟨by rw [decisionPolicy, if_pos hle], by rw [decisionStep, if_neg hrec]⟩

/-- Claim C2 witness. The strict-gate theorem applied to a deer detection whose
confidence is exactly `cfgA`'s threshold 0.6. -/
theorem equal_confidence_no_action_witness :
    detDeerEq.confidence = cfgA.RECORD_CONF_THRESHOLD ∧
      (decisionPolicy cfgA [detDeerEq] = Verdict.NoAction ∧
        decisionStep cfgA [detDeerEq] timeA = []) :=
  ⟨by decide, equal_confidence_no_action cfgA detDeerEq [] timeA (by decide)⟩

/-! ## C3 -/

/-- Claim C3. When the recording condition holds but no detected class is on the
allow-list, the cycle appends exactly one sighting-log line and performs no
network send, no frame persistence, and no radio send. -/
theorem log_only_no_dispatch (cfg : Configuration) (last : ℤ) (inp : CycleInput)
    (top : Detection) (rest : List Detection)
    (hlb : inp.lboxes = top :: rest)
    (hrec : cfg.RECORD = true)
    (hconf : cfg.RECORD_CONF_THRESHOLD < top.confidence)
    (hany : ((top :: rest).map (fun lbox => lbox.class_name)).any
        (fun itm => cfg.FILTER_CLASSES.contains itm) = false) :
    ((cycleTrace cfg last inp).1).countP isWriteLogEv = 1 ∧
      ((cycleTrace cfg last inp).1).countP isNetSendEv = 0 ∧
      ((cycleTrace cfg last inp).1).countP isPersistEv = 0 ∧
      ((cycleTrace cfg last inp).1).countP isLoraEv = 0 := by
  have hds := decisionStep_logOnly cfg top rest inp.wallClock hrec hconf hany
  refine ⟨?_, ?_, ?_, ?_⟩ <;>
    rw [cycleTrace_countP_decision cfg last inp _ rfl rfl rfl rfl rfl
        (fun _ => rfl) rfl, hlb, hds] <;>
    rfl

/-- Claim C3 witness. A bird at confidence 0.9 qualifies for recording but is
not on `cfgA`'s allow-list: one log line, no dispatch. -/
theorem log_only_no_dispatch_witness :
    (inpBird.lboxes = [detBird9] ∧ cfgA.RECORD = true ∧
        cfgA.RECORD_CONF_THRESHOLD < detBird9.confidence ∧
        (([detBird9] : List Detection).map (fun lbox => lbox.class_name)).any
          (fun itm => cfgA.FILTER_CLASSES.contains itm) = false) ∧
      (((cycleTrace cfgA 0 inpBird).1).countP isWriteLogEv = 1 ∧
        ((cycleTrace cfgA 0 inpBird).1).countP isNetSendEv = 0 ∧
        ((cycleTrace cfgA 0 inpBird).1).countP isPersistEv = 0 ∧
        ((cycleTrace cfgA 0 inpBird).1).countP isLoraEv = 0) :=
  ⟨⟨by decide, by decide, by decide, by decide⟩,
    log_only_no_dispatch cfgA 0 inpBird detBird9 [] (by decide) (by decide)
      (by decide) (by decide)⟩

/-! ## C4 -/

/-- Claim C4 counterexample. At a dispatching cycle under `cfgA` (connected,
radio on, deer detected at 0.8 > 0.6), the sighting-log write is *not* issued
before the frame persistence, and the persistence is *not* issued before the
network send: the code dispatches first (net send, persist, radio) and logs
last, refuting the claimed order at this concrete input. -/
theorem dispatch_order_counterexample :
    firstBeforeB isWriteLogEv isPersistEv ((cycleTrace cfgA 0 inpDeer).1) = false ∧
      firstBeforeB isPersistEv isNetSendEv ((cycleTrace cfgA 0 inpDeer).1) = false ∧
      firstBeforeB isNetSendEv isLoraEv ((cycleTrace cfgA 0 inpDeer).1) = true ∧
      ((cycleTrace cfgA 0 inpDeer).1).countP isWriteLogEv = 1 ∧
      ((cycleTrace cfgA 0 inpDeer).1).countP isPersistEv = 1 ∧
      ((cycleTrace cfgA 0 inpDeer).1).countP isNetSendEv = 1 ∧
      ((cycleTrace cfgA 0 inpDeer).1).countP isLoraEv = 1 := by
  decide

/-- Claim C4 (amended). In every cycle where the recording condition holds and
the filter intersection is non-empty, the side effects occur in the relative
order: network send first (if connected), then frame persistence, then radio
message (if radio enabled), then the sighting-log entry. -/
theorem dispatch_order_amended (cfg : Configuration) (last : ℤ)
    (inp : CycleInput) (top : Detection) (rest : List Detection)
    (hlb : inp.lboxes = top :: rest)
    (hrec : cfg.RECORD = true)
    (hconf : cfg.RECORD_CONF_THRESHOLD < top.confidence)
    (hany : ((top :: rest).map (fun lbox => lbox.class_name)).any
        (fun itm => cfg.FILTER_CLASSES.contains itm) = true) :
    (cfg.CONNECT_REMOTE_SERVER = true →
        firstBeforeB isNetSendEv isPersistEv ((cycleTrace cfg last inp).1) = true) ∧
      (cfg.LORA_ON = true →
        firstBeforeB isPersistEv isLoraEv ((cycleTrace cfg last inp).1) = true) ∧
      (cfg.LORA_ON = true →
        firstBeforeB isLoraEv isWriteLogEv ((cycleTrace cfg last inp).1) = true) ∧
      firstBeforeB isPersistEv isWriteLogEv ((cycleTrace cfg last inp).1) = true := by
  have hds := decisionStep_dispatch cfg top rest inp.wallClock hrec hconf hany
  refine ⟨?_, ?_, ?_, ?_⟩
  · intro hc
    rw [cycleTrace_firstBeforeB_decision cfg last inp isNetSendEv isPersistEv
        rfl rfl rfl rfl rfl (fun _ => rfl) rfl rfl rfl rfl rfl (fun _ => rfl),
      hlb, hds]
    simp [hc, firstBeforeB, firstIdx, isNetSendEv, isPersistEv]
  · intro hl
    rw [cycleTrace_firstBeforeB_decision cfg last inp isPersistEv isLoraEv
        rfl rfl rfl rfl rfl (fun _ => rfl) rfl rfl rfl rfl rfl (fun _ => rfl),
      hlb, hds]
    by_cases hc : cfg.CONNECT_REMOTE_SERVER = true <;>
      simp [hc, hl, firstBeforeB, firstIdx, isNetSendEv, isPersistEv, isLoraEv]
  · intro hl
    rw [cycleTrace_firstBeforeB_decision cfg last inp isLoraEv isWriteLogEv
        rfl rfl rfl rfl rfl (fun _ => rfl) rfl rfl rfl rfl rfl (fun _ => rfl),
      hlb, hds]
    by_cases hc : cfg.CONNECT_REMOTE_SERVER = true <;>
      simp [hc, hl, firstBeforeB, firstIdx, isNetSendEv, isPersistEv, isLoraEv,
        isWriteLogEv, isOpenLogEv]
  · rw [cycleTrace_firstBeforeB_decision cfg last inp isPersistEv isWriteLogEv
        rfl rfl rfl rfl rfl (fun _ => rfl) rfl rfl rfl rfl rfl (fun _ => rfl),
      hlb, hds]
    by_cases hc : cfg.CONNECT_REMOTE_SERVER = true <;>
      by_cases hl : cfg.LORA_ON = true <;>
      simp [hc, hl, firstBeforeB, firstIdx, isNetSendEv, isPersistEv, isLoraEv,
        isWriteLogEv, isOpenLogEv]

/-- Claim C4 (amended) witness. The amended ordering at the concrete dispatching
cycle `cfgA` / `[deer 0.8, bird 0.3]`. -/
theorem dispatch_order_amended_witness :
    (inpDeer.lboxes = [detDeer, detBird] ∧ cfgA.RECORD = true ∧
        cfgA.RECORD_CONF_THRESHOLD < detDeer.confidence ∧
        (([detDeer, detBird] : List Detection).map (fun lbox => lbox.class_name)).any
          (fun itm => cfgA.FILTER_CLASSES.contains itm) = true) ∧
      ((cfgA.CONNECT_REMOTE_SERVER = true →
          firstBeforeB isNetSendEv isPersistEv ((cycleTrace cfgA 0 inpDeer).1) = true) ∧
        (cfgA.LORA_ON = true →
          firstBeforeB isPersistEv isLoraEv ((cycleTrace cfgA 0 inpDeer).1) = true) ∧
        (cfgA.LORA_ON = true →
          firstBeforeB isLoraEv isWriteLogEv ((cycleTrace cfgA 0 inpDeer).1) = true) ∧
        firstBeforeB isPersistEv isWriteLogEv ((cycleTrace cfgA 0 inpDeer).1) = true) :=
  ⟨⟨by decide, by decide, by decide, by decide⟩,
    dispatch_order_amended cfgA 0 inpDeer detDeer [detBird] (by decide) (by decide)
      (by decide) (by decide)⟩

/-! ## C5 -/

/-- Claim C5. Within a dispatching cycle the network send (when connected) is
issued before the frame persistence and the radio message (when enabled) after
it; the run trace of cycle `N` followed by later cycles is cycle `N`'s events
followed by the later events, and every cycle's trace begins with its frame
capture — so all side effects of cycle `N` are issued before cycle `N+1`'s
capture. -/
theorem net_persist_radio_order_cycle_isolation (cfg : Configuration)
    (last : ℤ) (inp : CycleInput) (top : Detection) (rest : List Detection)
    (hlb : inp.lboxes = top :: rest)
    (hrec : cfg.RECORD = true)
    (hconf : cfg.RECORD_CONF_THRESHOLD < top.confidence)
    (hany : ((top :: rest).map (fun lbox => lbox.class_name)).any
        (fun itm => cfg.FILTER_CLASSES.contains itm) = true) :
    (cfg.CONNECT_REMOTE_SERVER = true →
        firstBeforeB isNetSendEv isPersistEv ((cycleTrace cfg last inp).1) = true) ∧
      (cfg.LORA_ON = true →
        firstBeforeB isPersistEv isLoraEv ((cycleTrace cfg last inp).1) = true) ∧
      (∀ rest2 : List CycleInput,
        loopTrace cfg last (inp :: rest2)
          = (cycleTrace cfg last inp).1
              ++ loopTrace cfg (cycleTrace cfg last inp).2 rest2) ∧
      (∀ (l2 : ℤ) (i2 : CycleInput),
        ((cycleTrace cfg l2 i2).1).head? = some Event.capture) := by
  have hds := decisionStep_dispatch cfg top rest inp.wallClock hrec hconf hany
  refine ⟨?_, ?_, ?_, ?_⟩
  · intro hc
    rw [cycleTrace_firstBeforeB_decision cfg last inp isNetSendEv isPersistEv
        rfl rfl rfl rfl rfl (fun _ => rfl) rfl rfl rfl rfl rfl (fun _ => rfl),
      hlb, hds]
    simp [hc, firstBeforeB, firstIdx, isNetSendEv, isPersistEv]
  · intro hl
    rw [cycleTrace_firstBeforeB_decision cfg last inp isPersistEv isLoraEv
        rfl rfl rfl rfl rfl (fun _ => rfl) rfl rfl rfl rfl rfl (fun _ => rfl),
      hlb, hds]
    by_cases hc : cfg.CONNECT_REMOTE_SERVER = true <;>
      simp [hc, hl, firstBeforeB, firstIdx, isNetSendEv, isPersistEv, isLoraEv]
  · intro rest2
    simp [loopTrace, runTry]
  · intro l2 i2
    rfl

/-- Claim C5 witness. The ordering and isolation facts at the concrete
dispatching cycle `cfgA` / `[deer 0.8, bird 0.3]`. -/
theorem net_persist_radio_order_cycle_isolation_witness :
    (inpDeer.lboxes = [detDeer, detBird] ∧ cfgA.RECORD = true ∧
        cfgA.RECORD_CONF_THRESHOLD < detDeer.confidence ∧
        (([detDeer, detBird] : List Detection).map (fun lbox => lbox.class_name)).any
          (fun itm => cfgA.FILTER_CLASSES.contains itm) = true) ∧
      ((cfgA.CONNECT_REMOTE_SERVER = true →
          firstBeforeB isNetSendEv isPersistEv ((cycleTrace cfgA 0 inpDeer).1) = true) ∧
        (cfgA.LORA_ON = true →
          firstBeforeB isPersistEv isLoraEv ((cycleTrace cfgA 0 inpDeer).1) = true) ∧
        (∀ rest2 : List CycleInput,
          loopTrace cfgA 0 (inpDeer :: rest2)
            = (cycleTrace cfgA 0 inpDeer).1
                ++ loopTrace cfgA (cycleTrace cfgA 0 inpDeer).2 rest2) ∧
        (∀ (l2 : ℤ) (i2 : CycleInput),
          ((cycleTrace cfgA l2 i2).1).head? = some Event.capture)) :=
  ⟨⟨by decide, by decide, by decide, by decide⟩,
    net_persist_radio_order_cycle_isolation cfgA 0 inpDeer detDeer [detBird]
      (by decide) (by decide) (by decide) (by decide)⟩

/-! ## C6 -/

/-- The heartbeat fires exactly when 15 seconds have elapsed. -/
lemma hb_fires_iff (now last : ℤ) :
    (send_heartbeat_every_15s now last).1 = true ↔ 15 ≤ now - last := by
  unfold send_heartbeat_every_15s
  split_ifs with h <;> simp [h]

/-- Firing resets the clock to the current time. -/
lemma hb_snd_of_fire (now last : ℤ) (h : 15 ≤ now - last) :
    (send_heartbeat_every_15s now last).2 = now := by
  unfold send_heartbeat_every_15s
  rw [if_pos h]

/-- Not firing leaves the clock unchanged. -/
lemma hb_snd_of_skip (now last : ℤ) (h : now - last < 15) :
    (send_heartbeat_every_15s now last).2 = last := by
  unfold send_heartbeat_every_15s
  rw [if_neg (not_le.mpr h)]

/-- Per-cycle heartbeat facts when a remote connection is configured: the check
happens exactly once, before inference; the beat fires (once, before inference,
resetting the clock) iff 15 seconds have elapsed since the last beat. -/
lemma cycleTrace_heartbeat (cfg : Configuration) (l2 : ℤ) (i2 : CycleInput)
    (hc : cfg.CONNECT_REMOTE_SERVER = true) :
    ((cycleTrace cfg l2 i2).1).countP isHbCheckEv = 1 ∧
      firstBeforeB isHbCheckEv isInferEv ((cycleTrace cfg l2 i2).1) = true ∧
      (15 ≤ i2.now - l2 →
        ((cycleTrace cfg l2 i2).1).countP isHbSendEv = 1 ∧
          (cycleTrace cfg l2 i2).2 = i2.now ∧
          firstBeforeB isHbSendEv isInferEv ((cycleTrace cfg l2 i2).1) = true) ∧
      (i2.now - l2 < 15 →
        ((cycleTrace cfg l2 i2).1).countP isHbSendEv = 0 ∧
          (cycleTrace cfg l2 i2).2 = l2) := by
  have hdsC := decisionStep_countP_zero cfg i2.lboxes i2.wallClock isHbCheckEv
    (fun _ => rfl) (fun _ => rfl) (fun _ => rfl) (fun _ _ => rfl) (fun _ => rfl) rfl
  have hdsS := decisionStep_countP_zero cfg i2.lboxes i2.wallClock isHbSendEv
    (fun _ => rfl) (fun _ => rfl) (fun _ => rfl) (fun _ _ => rfl) (fun _ => rfl) rfl
  by_cases hf : (send_heartbeat_every_15s i2.now l2).1 = true
  · have h15 : 15 ≤ i2.now - l2 := (hb_fires_iff i2.now l2).mp hf
    refine ⟨?_, ?_, fun _ => ⟨?_, ?_, ?_⟩, fun hlt => absurd h15 (not_le.mpr hlt)⟩
    · show (cycleHead cfg l2 i2 ++ _ ++ _).countP isHbCheckEv = 1
      simp [cycleHead, hc, hf, List.countP_append, List.countP_cons, hdsC,
        isHbCheckEv]
    · show firstBeforeB isHbCheckEv isInferEv (cycleHead cfg l2 i2 ++ _ ++ _) = true
      simp [cycleHead, hc, hf, firstBeforeB, firstIdx, isHbCheckEv, isInferEv]
    · show (cycleHead cfg l2 i2 ++ _ ++ _).countP isHbSendEv = 1
      simp [cycleHead, hc, hf, List.countP_append, List.countP_cons, hdsS,
        isHbSendEv]
    · show (if cfg.CONNECT_REMOTE_SERVER = true then
          (send_heartbeat_every_15s i2.now l2).2 else l2) = i2.now
      rw [if_pos hc, hb_snd_of_fire i2.now l2 h15]
    · show firstBeforeB isHbSendEv isInferEv (cycleHead cfg l2 i2 ++ _ ++ _) = true
      simp [cycleHead, hc, hf, firstBeforeB, firstIdx, isHbSendEv, isInferEv]
  · have h15 : ¬(15 ≤ i2.now - l2) := fun h =>
      hf ((hb_fires_iff i2.now l2).mpr h)
    refine ⟨?_, ?_, fun h => absurd h h15, fun _ => ⟨?_, ?_⟩⟩
    · show (cycleHead cfg l2 i2 ++ _ ++ _).countP isHbCheckEv = 1
      simp [cycleHead, hc, hf, List.countP_append, List.countP_cons, hdsC,
        isHbCheckEv]
    · show firstBeforeB isHbCheckEv isInferEv (cycleHead cfg l2 i2 ++ _ ++ _) = true
      simp [cycleHead, hc, hf, firstBeforeB, firstIdx, isHbCheckEv, isInferEv]
    · show (cycleHead cfg l2 i2 ++ _ ++ _).countP isHbSendEv = 0
      simp [cycleHead, hc, hf, List.countP_append, List.countP_cons, hdsS,
        isHbSendEv]
    · show (if cfg.CONNECT_REMOTE_SERVER = true then
          (send_heartbeat_every_15s i2.now l2).2 else l2) = l2
      rw [if_pos hc, hb_snd_of_skip i2.now l2 (not_le.mp h15)]

/-- Across a run, while every cycle starts less than 15 seconds after the last
beat no heartbeat is sent and the clock is unchanged; the first cycle at which
15 seconds have elapsed sends exactly one heartbeat and the run continues with
the clock reset to that cycle's start time. -/
lemma hb_first_fire (cfg : Configuration)
    (hc : cfg.CONNECT_REMOTE_SERVER = true) :
    ∀ (pre : List CycleInput) (last : ℤ) (inp : CycleInput)
      (rest : List CycleInput),
      (∀ p ∈ pre, p.now - last < 15) → 15 ≤ inp.now - last →
      (runTraces cfg last (pre ++ inp :: rest)).map
          (fun tr => tr.countP isHbSendEv)
        = List.replicate pre.length 0
            ++ 1 :: (runTraces cfg inp.now rest).map
              (fun tr => tr.countP isHbSendEv)
  | [], last, inp, rest, _, hfire => by
    have h := cycleTrace_heartbeat cfg last inp hc
    have h1 := (h.2.2.1 hfire).1
    have h2 := (h.2.2.1 hfire).2.1
    simp only [List.nil_append, runTraces, List.map_cons, h1, h2,
      List.replicate]
  | p :: t, last, inp, rest, hpre, hfire => by
    have h := cycleTrace_heartbeat cfg last p hc
    have hlt : p.now - last < 15 := hpre p (by simp)
    have h1 := (h.2.2.2 hlt).1
    have h2 := (h.2.2.2 hlt).2
    have ih := hb_first_fire cfg hc t last inp rest
      (fun q hq => hpre q (by simp [hq])) hfire
    simp only [List.cons_append, runTraces, List.map_cons, h1, h2,
      List.length_cons, List.replicate_succ, List.cons_append]
    exact congrArg (List.cons 0) ih

/-- Claim C6. With a remote connection configured, the heartbeat check runs once
at the start of every cycle before inference; a cycle sends a heartbeat (and
resets the clock) exactly when at least 15 seconds have elapsed since the last
beat — in particular, if the cycles in `pre` all start less than 15 seconds
after the last beat and `inp` starts at least 15 seconds after it, no beat is
sent during `pre`, exactly one is sent at `inp`, and the run continues with the
clock reset to `inp`'s start time.  Cycle start times are arbitrary, so the
behaviour is independent of how long any single inference call takes. -/
theorem heartbeat_cycle_start_first_due (cfg : Configuration) (last : ℤ)
    (pre : List CycleInput) (inp : CycleInput) (rest : List CycleInput)
    (hc : cfg.CONNECT_REMOTE_SERVER = true)
    (hpre : ∀ p ∈ pre, p.now - last < 15)
    (hfire : 15 ≤ inp.now - last) :
    (∀ (l2 : ℤ) (i2 : CycleInput),
        ((cycleTrace cfg l2 i2).1).countP isHbCheckEv = 1 ∧
        firstBeforeB isHbCheckEv isInferEv ((cycleTrace cfg l2 i2).1) = true ∧
        (15 ≤ i2.now - l2 →
          ((cycleTrace cfg l2 i2).1).countP isHbSendEv = 1 ∧
            (cycleTrace cfg l2 i2).2 = i2.now ∧
            firstBeforeB isHbSendEv isInferEv ((cycleTrace cfg l2 i2).1) = true) ∧
        (i2.now - l2 < 15 →
          ((cycleTrace cfg l2 i2).1).countP isHbSendEv = 0 ∧
            (cycleTrace cfg l2 i2).2 = l2)) ∧
      (runTraces cfg last (pre ++ inp :: rest)).map
          (fun tr => tr.countP isHbSendEv)
        = List.replicate pre.length 0
            ++ 1 :: (runTraces cfg inp.now rest).map
              (fun tr => tr.countP isHbSendEv) :=
  ⟨fun l2 i2 => cycleTrace_heartbeat cfg l2 i2 hc,
    hb_first_fire cfg hc pre last inp rest hpre hfire⟩

/-- Claim C6 witness. Last beat at time 0; a cycle at time 5 does not fire, the
next cycle at time 20 fires. -/
theorem heartbeat_cycle_start_first_due_witness :
    (cfgA.CONNECT_REMOTE_SERVER = true ∧
        (∀ p ∈ [inpAt5], p.now - 0 < 15) ∧ 15 ≤ inpAt20.now - 0) ∧
      ((∀ (l2 : ℤ) (i2 : CycleInput),
          ((cycleTrace cfgA l2 i2).1).countP isHbCheckEv = 1 ∧
          firstBeforeB isHbCheckEv isInferEv ((cycleTrace cfgA l2 i2).1) = true ∧
          (15 ≤ i2.now - l2 →
            ((cycleTrace cfgA l2 i2).1).countP isHbSendEv = 1 ∧
              (cycleTrace cfgA l2 i2).2 = i2.now ∧
              firstBeforeB isHbSendEv isInferEv ((cycleTrace cfgA l2 i2).1) = true) ∧
          (i2.now - l2 < 15 →
            ((cycleTrace cfgA l2 i2).1).countP isHbSendEv = 0 ∧
              (cycleTrace cfgA l2 i2).2 = l2)) ∧
        (runTraces cfgA 0 ([inpAt5] ++ inpAt20 :: [])).map
            (fun tr => tr.countP isHbSendEv)
          = List.replicate 1 0
              ++ 1 :: (runTraces cfgA inpAt20.now []).map
                (fun tr => tr.countP isHbSendEv)) :=
  ⟨⟨by decide, by decide, by decide⟩,
    heartbeat_cycle_start_first_due cfgA 0 [inpAt5] inpAt20 []
      (by decide) (by decide) (by decide)⟩

/-! ## C7 -/

/-- An uninterrupted run raises nothing. -/
lemma runTry_none_snd (cfg : Configuration) :
    ∀ (inputs : List CycleInput) (last : ℤ),
      (runTry cfg last inputs none).2 = none
  | [], _ => rfl
  | _ :: rest, last => by
    simp only [runTry]
    exact runTry_none_snd cfg rest _

/-- An exception raised anywhere in the run escapes the loop body. -/
lemma runTry_some_snd (cfg : Configuration) :
    ∀ (inputs : List CycleInput) (last : ℤ) (k : Nat) (exc : PyExc),
      (runTry cfg last inputs (some (k, exc))).2 = some exc
  | [], _, _, _ => rfl
  | inp :: rest, last, k, exc => by
    simp only [runTry]
    split_ifs
    · rfl
    · exact runTry_some_snd cfg rest _ _ exc

/-- The trace of a run in which the loop continues past the first cycle. -/
lemma loopTrace_cons (cfg : Configuration) (last : ℤ) (inp : CycleInput)
    (rest : List CycleInput) :
    loopTrace cfg last (inp :: rest)
      = (cycleTrace cfg last inp).1
          ++ loopTrace cfg (cycleTrace cfg last inp).2 rest := by
  simp [loopTrace, runTry]

/-- The events emitted before an exception at position `k` are exactly the
first `k` events of the uninterrupted run's trace. -/
lemma runTry_some_fst (cfg : Configuration) :
    ∀ (inputs : List CycleInput) (last : ℤ) (k : Nat) (exc : PyExc),
      (runTry cfg last inputs (some (k, exc))).1
        = (loopTrace cfg last inputs).take k
  | [], last, k, exc => by
    simp [runTry, loopTrace]
  | inp :: rest, last, k, exc => by
    rw [loopTrace_cons, List.take_append_eq_append_take]
    simp only [runTry]
    split_ifs with hk
    · rw [Nat.sub_eq_zero_of_le (Nat.le_of_lt hk), List.take_zero,
        List.append_nil]
    · rw [List.take_of_length_le (Nat.le_of_not_lt hk)]
      show (cycleTrace cfg last inp).1
          ++ (runTry cfg (cycleTrace cfg last inp).2 rest
              (some (k - (cycleTrace cfg last inp).1.length, exc))).1
        = (cycleTrace cfg last inp).1
          ++ (loopTrace cfg (cycleTrace cfg last inp).2 rest).take
              (k - (cycleTrace cfg last inp).1.length)
      rw [runTry_some_fst cfg rest _ _ exc]

/-- Claim C7. A `KeyboardInterrupt` arriving after any number `k` of executed
steps of the capture loop is caught: the program logs a warning, closes the
remote connection exactly when one is configured, and `main` returns normally
(process exit code 0), the trace ending with the handler's events.  Any other
exception at any position is not caught and surfaces as an unhandled
termination with no handler events emitted. -/
theorem cancellation_graceful_others_fatal (cfg : Configuration) (last : ℤ)
    (inputs : List CycleInput) (k : Nat) :
    mainLoop cfg last inputs (some (k, PyExc.keyboardInterrupt))
        = ((loopTrace cfg last inputs).take k
            ++ Event.logWarning "KeyboardInterrupt"
              :: (if cfg.CONNECT_REMOTE_SERVER then [Event.socketClose] else []),
          Outcome.exited 0) ∧
      (∀ name, mainLoop cfg last inputs (some (k, PyExc.otherExc name))
        = ((loopTrace cfg last inputs).take k, Outcome.crashed name)) := by
  constructor
  · have h1 := runTry_some_fst cfg inputs last k PyExc.keyboardInterrupt
    have h2 := runTry_some_snd cfg inputs last k PyExc.keyboardInterrupt
    simp [mainLoop, h1, h2]
  · intro name
    have h1 := runTry_some_fst cfg inputs last k (PyExc.otherExc name)
    have h2 := runTry_some_snd cfg inputs last k (PyExc.otherExc name)
    simp [mainLoop, h1, h2]

/-! ## C8 -/

/-- For event kinds that only the decision step produces, filtering the whole
cycle trace is filtering the decision step. -/
lemma cycleTrace_filter_decision (cfg : Configuration) (last : ℤ)
    (inp : CycleInput) (p : Event → Bool)
    (h1 : p Event.capture = false) (h2 : p Event.heartbeatCheck = false)
    (h3 : p Event.heartbeatSend = false) (h4 : p Event.inferRun = false)
    (h5 : p Event.printReport = false)
    (h6 : ∀ lb, p (Event.displayUpdate lb) = false)
    (h7 : p Event.streamReset = false) :
    ((cycleTrace cfg last inp).1).filter p
      = (decisionStep cfg inp.lboxes inp.wallClock).filter p := by
  show (cycleHead cfg last inp
      ++ decisionStep cfg inp.lboxes inp.wallClock
      ++ [Event.streamReset]).filter p = _
  have h0 : (cycleHead cfg last inp).filter p = [] :=
    List.filter_eq_nil_iff.mpr
      (List.countP_eq_zero.mp
        (cycleHead_countP_zero cfg last inp p h1 h2 h3 h4 h5 h6))
  simp [List.filter_append, h0, h7]

/-- Claim C8. Whenever radio alerting is enabled in a dispatching cycle, the
transmitted radio traffic of that cycle is exactly one message, the string
`"Top-1: "` followed by the top detection's class name and nothing else. -/
theorem lora_message_exact (cfg : Configuration) (last : ℤ) (inp : CycleInput)
    (top : Detection) (rest : List Detection)
    (hlb : inp.lboxes = top :: rest)
    (hrec : cfg.RECORD = true)
    (hconf : cfg.RECORD_CONF_THRESHOLD < top.confidence)
    (hany : ((top :: rest).map (fun lbox => lbox.class_name)).any
        (fun itm => cfg.FILTER_CLASSES.contains itm) = true)
    (hlora : cfg.LORA_ON = true) :
    ((cycleTrace cfg last inp).1).filter isLoraEv
      = [Event.loraSend ("Top-1: " ++ top.class_name)] := by
  have hds := decisionStep_dispatch cfg top rest inp.wallClock hrec hconf hany
  rw [cycleTrace_filter_decision cfg last inp isLoraEv rfl rfl rfl rfl rfl
      (fun _ => rfl) rfl, hlb, hds]
  by_cases hc : cfg.CONNECT_REMOTE_SERVER = true <;>
    simp [hc, hlora, List.filter_append, isLoraEv]

/-- Claim C8 witness. The radio message at the concrete dispatching cycle
`cfgA` / `[deer 0.8, bird 0.3]` is exactly `"Top-1: deer"`. -/
theorem lora_message_exact_witness :
    (inpDeer.lboxes = [detDeer, detBird] ∧ cfgA.RECORD = true ∧
        cfgA.RECORD_CONF_THRESHOLD < detDeer.confidence ∧
        (([detDeer, detBird] : List Detection).map (fun lbox => lbox.class_name)).any
          (fun itm => cfgA.FILTER_CLASSES.contains itm) = true ∧
        cfgA.LORA_ON = true) ∧
      ((cycleTrace cfgA 0 inpDeer).1).filter isLoraEv
        = [Event.loraSend ("Top-1: " ++ detDeer.class_name)] :=
  ⟨⟨by decide, by decide, by decide, by decide, by decide⟩,
    lora_message_exact cfgA 0 inpDeer detDeer [detBird] (by decide) (by decide)
      (by decide) (by decide) (by decide)⟩

/-! ## C9 -/

/-- Any cycle appends at most one sighting-log line. -/
lemma decisionStep_write_le_one (cfg : Configuration) (lboxes : List Detection)
    (now : DateTime) :
    (decisionStep cfg lboxes now).countP isWriteLogEv ≤ 1 := by
  cases lboxes with
  | nil => simp [decisionStep]
  | cons top rest =>
    rw [decisionStep]
    split_ifs <;>
      simp [List.countP_append, List.countP_cons, isWriteLogEv]

/-- Claim C9. In every qualifying cycle the sighting log receives exactly one
line, of the exact form `<strftime timestamp> ++ " | " ++ <top class> ++ "\n"`;
the file is opened (path `what_was_seen.log`, mode `a+`) before the write and
closed after it, once per cycle; and no cycle ever appends more than one
line. -/
theorem sighting_log_line_exact (cfg : Configuration) (last : ℤ)
    (inp : CycleInput) (top : Detection) (rest : List Detection)
    (hlb : inp.lboxes = top :: rest)
    (hrec : cfg.RECORD = true)
    (hconf : cfg.RECORD_CONF_THRESHOLD < top.confidence) :
    ((cycleTrace cfg last inp).1).filter isOpenLogEv
        = [Event.openLog "what_was_seen.log" "a+"] ∧
      ((cycleTrace cfg last inp).1).filter isWriteLogEv
        = [Event.writeLog
            (strftimeYmdHMS inp.wallClock ++ " | " ++ top.class_name ++ "\n")] ∧
      ((cycleTrace cfg last inp).1).countP isCloseLogEv = 1 ∧
      firstBeforeB isOpenLogEv isWriteLogEv ((cycleTrace cfg last inp).1) = true ∧
      firstBeforeB isWriteLogEv isCloseLogEv ((cycleTrace cfg last inp).1) = true ∧
      (∀ (l2 : ℤ) (i2 : CycleInput),
        ((cycleTrace cfg l2 i2).1).countP isWriteLogEv ≤ 1) := by
  by_cases hany : ((top :: rest).map (fun lbox => lbox.class_name)).any
      (fun itm => cfg.FILTER_CLASSES.contains itm) = true
  case pos =>
    have hds := decisionStep_dispatch cfg top rest inp.wallClock hrec hconf hany
    refine ⟨?_, ?_, ?_, ?_, ?_, ?_⟩
    · rw [cycleTrace_filter_decision cfg last inp isOpenLogEv rfl rfl rfl rfl rfl
          (fun _ => rfl) rfl, hlb, hds]
      by_cases hc : cfg.CONNECT_REMOTE_SERVER = true <;>
        by_cases hl : cfg.LORA_ON = true <;>
        simp [hc, hl, List.filter_append, isOpenLogEv]
    · rw [cycleTrace_filter_decision cfg last inp isWriteLogEv rfl rfl rfl rfl rfl
          (fun _ => rfl) rfl, hlb, hds]
      by_cases hc : cfg.CONNECT_REMOTE_SERVER = true <;>
        by_cases hl : cfg.LORA_ON = true <;>
        simp [hc, hl, List.filter_append, isWriteLogEv]
    · rw [cycleTrace_countP_decision cfg last inp _ rfl rfl rfl rfl rfl
          (fun _ => rfl) rfl, hlb, hds]
      by_cases hc : cfg.CONNECT_REMOTE_SERVER = true <;>
        by_cases hl : cfg.LORA_ON = true <;>
        simp [hc, hl, List.countP_append, List.countP_cons, isCloseLogEv]
    · rw [cycleTrace_firstBeforeB_decision cfg last inp isOpenLogEv isWriteLogEv
          rfl rfl rfl rfl rfl (fun _ => rfl) rfl rfl rfl rfl rfl (fun _ => rfl),
        hlb, hds]
      by_cases hc : cfg.CONNECT_REMOTE_SERVER = true <;>
        by_cases hl : cfg.LORA_ON = true <;>
        simp [hc, hl, firstBeforeB, firstIdx, isOpenLogEv, isWriteLogEv]
    · rw [cycleTrace_firstBeforeB_decision cfg last inp isWriteLogEv isCloseLogEv
          rfl rfl rfl rfl rfl (fun _ => rfl) rfl rfl rfl rfl rfl (fun _ => rfl),
        hlb, hds]
      by_cases hc : cfg.CONNECT_REMOTE_SERVER = true <;>
        by_cases hl : cfg.LORA_ON = true <;>
        simp [hc, hl, firstBeforeB, firstIdx, isWriteLogEv, isCloseLogEv]
    · intro l2 i2
      rw [cycleTrace_countP_decision cfg l2 i2 _ rfl rfl rfl rfl rfl
          (fun _ => rfl) rfl]
      exact decisionStep_write_le_one cfg i2.lboxes i2.wallClock
  case neg =>
    have hany' : ((top :: rest).map (fun lbox => lbox.class_name)).any
        (fun itm => cfg.FILTER_CLASSES.contains itm) = false :=
      Bool.eq_false_iff.mpr hany
    have hds := decisionStep_logOnly cfg top rest inp.wallClock hrec hconf hany'
    refine ⟨?_, ?_, ?_, ?_, ?_, ?_⟩
    · rw [cycleTrace_filter_decision cfg last inp isOpenLogEv rfl rfl rfl rfl rfl
          (fun _ => rfl) rfl, hlb, hds]
      rfl
    · rw [cycleTrace_filter_decision cfg last inp isWriteLogEv rfl rfl rfl rfl rfl
          (fun _ => rfl) rfl, hlb, hds]
      rfl
    · rw [cycleTrace_countP_decision cfg last inp _ rfl rfl rfl rfl rfl
          (fun _ => rfl) rfl, hlb, hds]
      rfl
    · rw [cycleTrace_firstBeforeB_decision cfg last inp isOpenLogEv isWriteLogEv
          rfl rfl rfl rfl rfl (fun _ => rfl) rfl rfl rfl rfl rfl (fun _ => rfl),
        hlb, hds]
      rfl
    · rw [cycleTrace_firstBeforeB_decision cfg last inp isWriteLogEv isCloseLogEv
          rfl rfl rfl rfl rfl (fun _ => rfl) rfl rfl rfl rfl rfl (fun _ => rfl),
        hlb, hds]
      rfl
    · intro l2 i2
      rw [cycleTrace_countP_decision cfg l2 i2 _ rfl rfl rfl rfl rfl
          (fun _ => rfl) rfl]
      exact decisionStep_write_le_one cfg i2.lboxes i2.wallClock

/-- Claim C9 witness. The log-line facts at the concrete dispatching cycle
`cfgA` / `[deer 0.8, bird 0.3]`: one line `"2026-10-12 09:05:03 | deer\n"`. -/
theorem sighting_log_line_exact_witness :
    (inpDeer.lboxes = [detDeer, detBird] ∧ cfgA.RECORD = true ∧
        cfgA.RECORD_CONF_THRESHOLD < detDeer.confidence) ∧
      (((cycleTrace cfgA 0 inpDeer).1).filter isOpenLogEv
          = [Event.openLog "what_was_seen.log" "a+"] ∧
        ((cycleTrace cfgA 0 inpDeer).1).filter isWriteLogEv
          = [Event.writeLog
              (strftimeYmdHMS inpDeer.wallClock ++ " | "
                ++ detDeer.class_name ++ "\n")] ∧
        ((cycleTrace cfgA 0 inpDeer).1).countP isCloseLogEv = 1 ∧
        firstBeforeB isOpenLogEv isWriteLogEv ((cycleTrace cfgA 0 inpDeer).1) = true ∧
        firstBeforeB isWriteLogEv isCloseLogEv ((cycleTrace cfgA 0 inpDeer).1) = true ∧
        (∀ (l2 : ℤ) (i2 : CycleInput),
          ((cycleTrace cfgA l2 i2).1).countP isWriteLogEv ≤ 1)) :=
  ⟨⟨by decide, by decide, by decide⟩,
    sighting_log_line_exact cfgA 0 inpDeer detDeer [detBird] (by decide)
      (by decide) (by decide)⟩

/-! ## C10 -/

/-- Claim C10. The class filter matches any detection in the sequence, but the
reported name is always the top detection's: when the recording condition
holds, the top class is not on the allow-list and some lower-ranked class is,
dispatch still occurs (frame persisted, network send if connected) and both the
radio message and the sighting-log line name the non-allow-listed top class. -/
theorem top_class_reported (cfg : Configuration) (last : ℤ) (inp : CycleInput)
    (top : Detection) (rest : List Detection)
    (hlb : inp.lboxes = top :: rest)
    (hrec : cfg.RECORD = true)
    (hconf : cfg.RECORD_CONF_THRESHOLD < top.confidence)
    (htop : cfg.FILTER_CLASSES.contains top.class_name = false)
    (hsome : (rest.map (fun lbox => lbox.class_name)).any
        (fun itm => cfg.FILTER_CLASSES.contains itm) = true) :
    ((cycleTrace cfg last inp).1).countP isPersistEv = 1 ∧
      (cfg.CONNECT_REMOTE_SERVER = true →
        ((cycleTrace cfg last inp).1).countP isNetSendEv = 1) ∧
      (cfg.LORA_ON = true →
        ((cycleTrace cfg last inp).1).filter isLoraEv
          = [Event.loraSend ("Top-1: " ++ top.class_name)]) ∧
      ((cycleTrace cfg last inp).1).filter isWriteLogEv
        = [Event.writeLog
            (strftimeYmdHMS inp.wallClock ++ " | " ++ top.class_name ++ "\n")] := by
  have hany : ((top :: rest).map (fun lbox => lbox.class_name)).any
      (fun itm => cfg.FILTER_CLASSES.contains itm) = true := by
    simp only [List.map_cons, List.any_cons, hsome, Bool.or_true]
  have hds := decisionStep_dispatch cfg top rest inp.wallClock hrec hconf hany
  refine ⟨?_, ?_, ?_, ?_⟩
  · rw [cycleTrace_countP_decision cfg last inp _ rfl rfl rfl rfl rfl
        (fun _ => rfl) rfl, hlb, hds]
    by_cases hc : cfg.CONNECT_REMOTE_SERVER = true <;>
      by_cases hl : cfg.LORA_ON = true <;>
      simp [hc, hl, List.countP_append, List.countP_cons, isPersistEv]
  · intro hc
    rw [cycleTrace_countP_decision cfg last inp _ rfl rfl rfl rfl rfl
        (fun _ => rfl) rfl, hlb, hds]
    by_cases hl : cfg.LORA_ON = true <;>
      simp [hc, hl, List.countP_append, List.countP_cons, isNetSendEv]
  · intro hl
    rw [cycleTrace_filter_decision cfg last inp isLoraEv rfl rfl rfl rfl rfl
        (fun _ => rfl) rfl, hlb, hds]
    by_cases hc : cfg.CONNECT_REMOTE_SERVER = true <;>
      simp [hc, hl, List.filter_append, isLoraEv]
  · rw [cycleTrace_filter_decision cfg last inp isWriteLogEv rfl rfl rfl rfl rfl
        (fun _ => rfl) rfl, hlb, hds]
    by_cases hc : cfg.CONNECT_REMOTE_SERVER = true <;>
      by_cases hl : cfg.LORA_ON = true <;>
      simp [hc, hl, List.filter_append, isWriteLogEv]

/-- Claim C10 witness. `[bird 0.9, deer 0.8]` under `cfgA`: bird is not on the
allow-list, deer is; dispatch occurs and both the radio message and the log
line say `bird`. -/
theorem top_class_reported_witness :
    (inpMixed.lboxes = [detBird9, detDeer] ∧ cfgA.RECORD = true ∧
        cfgA.RECORD_CONF_THRESHOLD < detBird9.confidence ∧
        cfgA.FILTER_CLASSES.contains detBird9.class_name = false ∧
        (([detDeer] : List Detection).map (fun lbox => lbox.class_name)).any
          (fun itm => cfgA.FILTER_CLASSES.contains itm) = true) ∧
      (((cycleTrace cfgA 0 inpMixed).1).countP isPersistEv = 1 ∧
        (cfgA.CONNECT_REMOTE_SERVER = true →
          ((cycleTrace cfgA 0 inpMixed).1).countP isNetSendEv = 1) ∧
        (cfgA.LORA_ON = true →
          ((cycleTrace cfgA 0 inpMixed).1).filter isLoraEv
            = [Event.loraSend ("Top-1: " ++ detBird9.class_name)]) ∧
        ((cycleTrace cfgA 0 inpMixed).1).filter isWriteLogEv
          = [Event.writeLog
              (strftimeYmdHMS inpMixed.wallClock ++ " | "
                ++ detBird9.class_name ++ "\n")]) :=
  ⟨⟨by decide, by decide, by decide, by decide, by decide⟩,
    top_class_reported cfgA 0 inpMixed detBird9 [detDeer] (by decide)
      (by decide) (by decide) (by decide) (by decide)⟩

end ScrubCam
